import Mathlib

/-!
Shallow embedding of the SalesBuildr MCP server core (src/index.ts together
with the five domain handler modules under src/domains/).  The embedding
covers the navigation state machine, the list-tools computation, the
call-tool request router with its outer try/catch, and the five domain
handlers with the upstream calls they issue.  The upstream SalesBuildr
client and getClient() are external collaborators and are modelled as an
environment of oracles (each call either resolves to a JSON value or
rejects with an error message).
-/

namespace Salesbuildr

/-- JSON-like runtime values used for tool arguments and upstream results
(the `Record<string, unknown>` argument bags of the TypeScript code). -/
inductive JValue where
  | str (s : String)
  | num (n : Int)
  | bool (b : Bool)
  | null
  | arr (elems : List JValue)
  | obj (fields : List (String × JValue))

/-- An argument bag: a JavaScript object, i.e. an ordered list of
key/value fields with (in practice) unique keys. -/
abbrev Args := List (String × JValue)

/-- JS property read `a[k]`: the value of the first field named `k`;
`none` models the property being absent (JS `undefined`). -/
def lookupField (k : String) : Args → Option JValue
  | [] => none
  | (k', v) :: rest => if k' = k then some v else lookupField k rest

/-- JS rest destructuring `const \x7b id: _, ...data \x7d = args`:
the argument object with the field `k` removed. -/
def removeField (k : String) (a : Args) : Args :=
  a.filter (fun p => p.1 != k)

/-- Build the parameter object the list handlers pass upstream, e.g.
`\x7b query: params.query, from: params.from, size: params.size \x7d`:
the listed keys are copied from the argument bag.  Keys whose argument is
absent carry JS `undefined` in the source object and are modelled as
omitted. -/
def pickFields (keys : List String) (a : Args) : Args :=
  keys.filterMap (fun k => (lookupField k a).map (fun v => (k, v)))

/-- The five registered domains (the `Domain` union type of index.ts). -/
inductive Domain where
  | companies
  | contacts
  | products
  | opportunities
  | quotes
deriving DecidableEq, Repr

/-- The string literal denoting each domain. -/
def domainName : Domain → String
  | .companies => "companies"
  | .contacts => "contacts"
  | .products => "products"
  | .opportunities => "opportunities"
  | .quotes => "quotes"

/-- Runtime value held in `state.currentDomain`.  The TypeScript type is
`Domain | null`, but the navigate branch assigns the incoming argument
without a runtime check, so at runtime the field can also hold
`undefined` (when the `domain` argument is absent) or an arbitrary value
supplied by the caller. -/
inductive StateVal where
  | null
  | undef
  | val (v : JValue)

/-- Server state: the single mutable piece of session state. -/
structure ServerState where
  currentDomain : StateVal

/-- `const state: ServerState = \x7b currentDomain: null \x7d`. -/
def initialState : ServerState := ⟨StateVal.null⟩

/-- The session state reached by a successful navigation to `d`. -/
def inDomain (d : Domain) : ServerState := ⟨StateVal.val (JValue.str (domainName d))⟩

/-- The runtime `Domain` denoted by the value in `currentDomain`: the
exhaustive `switch` in `getDomainTools` matches the five string literals;
any other runtime value falls through (`getDomainTools` then evaluates to
JS `undefined`, modelled as `none`). -/
def asDomain : StateVal → Option Domain
  | .val (.str "companies") => some .companies
  | .val (.str "contacts") => some .contacts
  | .val (.str "products") => some .products
  | .val (.str "opportunities") => some .opportunities
  | .val (.str "quotes") => some .quotes
  | _ => none

/-- A tool descriptor.  The router and the list-tools handler only ever
read the `name` field; the human-readable description and the JSON input
schema are inert data (never consulted by any control flow in index.ts)
and are elided here. -/
structure Tool where
  name : String
deriving DecidableEq, Repr

/-- Navigation tool — entry point of the decision tree. -/
def navigateTool : Tool := ⟨"salesbuildr_navigate"⟩

/-- Back navigation tool — return to domain selection. -/
def backTool : Tool := ⟨"salesbuildr_back"⟩

/-- Company domain tool definitions (domains/companies.ts), in
registration order. -/
def companyTools : List Tool :=
  [⟨"salesbuildr_companies_list"⟩, ⟨"salesbuildr_companies_get"⟩,
   ⟨"salesbuildr_companies_create"⟩, ⟨"salesbuildr_companies_update"⟩,
   ⟨"salesbuildr_companies_delete"⟩]

/-- Contact domain tool definitions (domains/contacts.ts). -/
def contactTools : List Tool :=
  [⟨"salesbuildr_contacts_list"⟩, ⟨"salesbuildr_contacts_get"⟩,
   ⟨"salesbuildr_contacts_create"⟩, ⟨"salesbuildr_contacts_update"⟩,
   ⟨"salesbuildr_contacts_delete"⟩]

/-- Product domain tool definitions (domains/products.ts). -/
def productTools : List Tool :=
  [⟨"salesbuildr_products_list"⟩, ⟨"salesbuildr_products_get"⟩]

/-- Opportunity domain tool definitions (domains/opportunities.ts). -/
def opportunityTools : List Tool :=
  [⟨"salesbuildr_opportunities_list"⟩, ⟨"salesbuildr_opportunities_get"⟩,
   ⟨"salesbuildr_opportunities_create"⟩, ⟨"salesbuildr_opportunities_update"⟩]

/-- Quote domain tool definitions (domains/quotes.ts). -/
def quoteTools : List Tool :=
  [⟨"salesbuildr_quotes_list"⟩, ⟨"salesbuildr_quotes_get"⟩,
   ⟨"salesbuildr_quotes_create"⟩]

/-- `getDomainTools`: tools for a specific domain. -/
def getDomainTools : Domain → List Tool
  | .companies => companyTools
  | .contacts => contactTools
  | .products => productTools
  | .opportunities => opportunityTools
  | .quotes => quoteTools

/-- The namespace string each domain handler branch of the router tests
with `name.startsWith(...)`. -/
def domainPrefixStr : Domain → String
  | .companies => "salesbuildr_companies_"
  | .contacts => "salesbuildr_contacts_"
  | .products => "salesbuildr_products_"
  | .opportunities => "salesbuildr_opportunities_"
  | .quotes => "salesbuildr_quotes_"

/-- JS `s.startsWith(pre)`: the characters of `pre` are an initial
segment of the characters of `s`. -/
def jsStartsWith (s pre : String) : Bool :=
  pre.data.isPrefixOf s.data

mutual
/-- Serialization of a JSON value, abstracting `JSON.stringify(result,
null, 2)` (the pretty-printing whitespace is not reproduced).  The router
and every property below treat this text opaquely. -/
def stringify : JValue → String
  | .str s => "\"" ++ s ++ "\""
  | .num n => toString n
  | .bool b => toString b
  | .null => "null"
  | .arr xs => "[" ++ stringifyList xs ++ "]"
  | .obj fs => "\x7b" ++ stringifyObj fs ++ "\x7d"

/-- Comma-joined serialization of array elements. -/
def stringifyList : List JValue → String
  | [] => ""
  | [v] => stringify v
  | v :: vs => stringify v ++ ", " ++ stringifyList vs

/-- Comma-joined serialization of object fields. -/
def stringifyObj : List (String × JValue) → String
  | [] => ""
  | [(k, v)] => "\"" ++ k ++ "\": " ++ stringify v
  | (k, v) :: fs => "\"" ++ k ++ "\": " ++ stringify v ++ ", " ++ stringifyObj fs
end

/-- JS template-literal coercion of a destructured binding to text
(`$\x7bid\x7d`); an absent property prints as `undefined`. -/
def jsToString : Option JValue → String
  | none => "undefined"
  | some (.str s) => s
  | some (.num n) => toString n
  | some (.bool b) => toString b
  | some .null => "null"
  | some v => stringify v

/-- A text content block `\x7b type: "text", text \x7d` (the only content
block kind this server produces). -/
structure TextBlock where
  text : String
deriving DecidableEq, Repr

/-- The response envelope every tool invocation returns: content blocks
plus the optional error flag.  `isError = none` models the field being
absent from the returned object (the success shape); the code only ever
writes `isError: true`, never `false`. -/
structure Envelope where
  content : List TextBlock
  isError : Option Bool := none
deriving DecidableEq, Repr

/-- Success envelope wrapping `JSON.stringify` output of an upstream
result. -/
def jsonEnvelope (v : JValue) : Envelope := ⟨[⟨stringify v⟩], none⟩

/-- Success envelope with a fixed text. -/
def textEnvelope (s : String) : Envelope := ⟨[⟨s⟩], none⟩

/-- Error envelope: one text block and `isError: true`. -/
def errorEnvelope (s : String) : Envelope := ⟨[⟨s⟩], some true⟩

/-- The upstream client method invoked by a handler case. -/
inductive Method where
  | list
  | get
  | create
  | update
  | delete
deriving DecidableEq, Repr

/-- One call to the upstream client, `client.<domain>.<method>(id?,
payload?)`: `callId` is the positional identifier argument (`none` when
the method takes no identifier), `payload` the object argument (`none`
when the method takes no object). -/
structure UpstreamCall where
  domain : Domain
  method : Method
  callId : Option JValue
  payload : Option Args

/-- External collaborators of the handlers: `clientInit` models `await
getClient()` (which throws when `SALESBUILDR_API_KEY` is unset or the
client package is missing), and `call` models the upstream client
methods, each resolving to a JSON value or rejecting with an error
message. -/
structure Env where
  clientInit : Except String Unit
  call : UpstreamCall → Except String JValue

/-- `await client.<c>(...)` followed by building an envelope from the
result: records the upstream call issued and either the envelope or the
propagated rejection. -/
def awaitCall (env : Env) (c : UpstreamCall) (k : JValue → Envelope) :
    List UpstreamCall × Except String Envelope :=
  ([c], (env.call c).map k)

/-- `handleCompanyTool` (domains/companies.ts): returns the upstream
calls issued together with the envelope, or the thrown error. -/
def handleCompanyTool (env : Env) (name : String) (args : Args) :
    List UpstreamCall × Except String Envelope :=
  match env.clientInit with
  | .error e => ([], .error e)
  | .ok _ =>
    if name = "salesbuildr_companies_list" then
      awaitCall env ⟨.companies, .list, none, some (pickFields ["query", "from", "size"] args)⟩ jsonEnvelope
    else if name = "salesbuildr_companies_get" then
      awaitCall env ⟨.companies, .get, lookupField "id" args, none⟩ jsonEnvelope
    else if name = "salesbuildr_companies_create" then
      awaitCall env ⟨.companies, .create, none, some (removeField "id" args)⟩ jsonEnvelope
    else if name = "salesbuildr_companies_update" then
      awaitCall env ⟨.companies, .update, lookupField "id" args, some (removeField "id" args)⟩ jsonEnvelope
    else if name = "salesbuildr_companies_delete" then
      awaitCall env ⟨.companies, .delete, lookupField "id" args, none⟩
        (fun _ => textEnvelope ("Company " ++ jsToString (lookupField "id" args) ++ " deleted successfully."))
    else
      ([], .ok (errorEnvelope ("Unknown company tool: " ++ name)))

/-- `handleContactTool` (domains/contacts.ts). -/
def handleContactTool (env : Env) (name : String) (args : Args) :
    List UpstreamCall × Except String Envelope :=
  match env.clientInit with
  | .error e => ([], .error e)
  | .ok _ =>
    if name = "salesbuildr_contacts_list" then
      awaitCall env ⟨.contacts, .list, none, some (pickFields ["query", "companyId", "from", "size"] args)⟩ jsonEnvelope
    else if name = "salesbuildr_contacts_get" then
      awaitCall env ⟨.contacts, .get, lookupField "id" args, none⟩ jsonEnvelope
    else if name = "salesbuildr_contacts_create" then
      awaitCall env ⟨.contacts, .create, none, some (removeField "id" args)⟩ jsonEnvelope
    else if name = "salesbuildr_contacts_update" then
      awaitCall env ⟨.contacts, .update, lookupField "id" args, some (removeField "id" args)⟩ jsonEnvelope
    else if name = "salesbuildr_contacts_delete" then
      awaitCall env ⟨.contacts, .delete, lookupField "id" args, none⟩
        (fun _ => textEnvelope ("Contact " ++ jsToString (lookupField "id" args) ++ " deleted successfully."))
    else
      ([], .ok (errorEnvelope ("Unknown contact tool: " ++ name)))

/-- `handleProductTool` (domains/products.ts). -/
def handleProductTool (env : Env) (name : String) (args : Args) :
    List UpstreamCall × Except String Envelope :=
  match env.clientInit with
  | .error e => ([], .error e)
  | .ok _ =>
    if name = "salesbuildr_products_list" then
      awaitCall env ⟨.products, .list, none, some (pickFields ["query", "from", "size"] args)⟩ jsonEnvelope
    else if name = "salesbuildr_products_get" then
      awaitCall env ⟨.products, .get, lookupField "id" args, none⟩ jsonEnvelope
    else
      ([], .ok (errorEnvelope ("Unknown product tool: " ++ name)))

/-- `handleOpportunityTool` (domains/opportunities.ts). -/
def handleOpportunityTool (env : Env) (name : String) (args : Args) :
    List UpstreamCall × Except String Envelope :=
  match env.clientInit with
  | .error e => ([], .error e)
  | .ok _ =>
    if name = "salesbuildr_opportunities_list" then
      awaitCall env ⟨.opportunities, .list, none, some (pickFields ["query", "from", "size"] args)⟩ jsonEnvelope
    else if name = "salesbuildr_opportunities_get" then
      awaitCall env ⟨.opportunities, .get, lookupField "id" args, none⟩ jsonEnvelope
    else if name = "salesbuildr_opportunities_create" then
      awaitCall env ⟨.opportunities, .create, none, some (removeField "id" args)⟩ jsonEnvelope
    else if name = "salesbuildr_opportunities_update" then
      awaitCall env ⟨.opportunities, .update, lookupField "id" args, some (removeField "id" args)⟩ jsonEnvelope
    else
      ([], .ok (errorEnvelope ("Unknown opportunity tool: " ++ name)))

/-- `handleQuoteTool` (domains/quotes.ts). -/
def handleQuoteTool (env : Env) (name : String) (args : Args) :
    List UpstreamCall × Except String Envelope :=
  match env.clientInit with
  | .error e => ([], .error e)
  | .ok _ =>
    if name = "salesbuildr_quotes_list" then
      awaitCall env ⟨.quotes, .list, none, some (pickFields ["query", "companyId", "opportunityId", "from", "size"] args)⟩ jsonEnvelope
    else if name = "salesbuildr_quotes_get" then
      awaitCall env ⟨.quotes, .get, lookupField "id" args, none⟩ jsonEnvelope
    else if name = "salesbuildr_quotes_create" then
      awaitCall env ⟨.quotes, .create, none, some (removeField "id" args)⟩ jsonEnvelope
    else
      ([], .ok (errorEnvelope ("Unknown quote tool: " ++ name)))

/-- The handler module registered for each domain. -/
def handlerFor : Domain → Env → String → Args → List UpstreamCall × Except String Envelope
  | .companies => handleCompanyTool
  | .contacts => handleContactTool
  | .products => handleProductTool
  | .opportunities => handleOpportunityTool
  | .quotes => handleQuoteTool

/-- `ListToolsRequestSchema` handler: tools visible in the current state.
On a corrupt state (a `currentDomain` that is neither `null` nor one of
the five registered strings) the code evaluates `tools.push(
...getDomainTools(state.currentDomain))` where `getDomainTools` returned
`undefined`, which throws a TypeError; that uncaught throw is modelled as
`Except.error`. -/
def listTools (st : ServerState) : Except String (List Tool) :=
  match st.currentDomain with
  | .null => .ok [navigateTool]
  | cd =>
    match asDomain cd with
    | some d => .ok (backTool :: getDomainTools d)
    | none => .error "Spread syntax requires an iterable"

/-- The navigate branch writes `state.currentDomain = domain` where
`domain` is the destructured argument: the property value when present,
JS `undefined` when the `domain` key is absent. -/
def navTarget (a : Args) : StateVal :=
  match lookupField "domain" a with
  | none => StateVal.undef
  | some v => StateVal.val v

/-- Body of the `CallToolRequestSchema` handler, before the surrounding
try/catch: the resulting session state, the upstream calls issued, and
either the envelope or the error thrown.  Notes on the navigate branch:
the JS code assigns `state.currentDomain = domain` with no runtime
validation, and only afterwards calls `getDomainTools(domain)`; for a
value outside the five registered strings that call yields `undefined`
and `.map` on it throws — after the state was already mutated.  In the
success branch the interpolated `$\x7bdomain\x7d` equals `domainName d`
because `asDomain` only matches exactly those strings. -/
def callToolBody (env : Env) (st : ServerState) (name : String) (args? : Option Args) :
    ServerState × List UpstreamCall × Except String Envelope :=
  if name = "salesbuildr_navigate" then
    match args? with
    | none => (st, [], .error "Cannot destructure property domain of undefined")
    | some a =>
      match asDomain (navTarget a) with
      | some d =>
        (⟨navTarget a⟩, [], .ok (textEnvelope ("Navigated to " ++ domainName d ++
          " domain. Available tools: " ++
          String.intercalate ", " ((getDomainTools d).map Tool.name))))
      | none => (⟨navTarget a⟩, [], .error "Cannot read properties of undefined (reading map)")
  else if name = "salesbuildr_back" then
    (⟨StateVal.null⟩, [],
      .ok (textEnvelope "Returned to domain selection. Use salesbuildr_navigate to select a domain: companies, contacts, products, opportunities, quotes"))
  else
    if jsStartsWith name (domainPrefixStr .companies) then
      (st, handleCompanyTool env name (args?.getD []))
    else if jsStartsWith name (domainPrefixStr .contacts) then
      (st, handleContactTool env name (args?.getD []))
    else if jsStartsWith name (domainPrefixStr .products) then
      (st, handleProductTool env name (args?.getD []))
    else if jsStartsWith name (domainPrefixStr .opportunities) then
      (st, handleOpportunityTool env name (args?.getD []))
    else if jsStartsWith name (domainPrefixStr .quotes) then
      (st, handleQuoteTool env name (args?.getD []))
    else
      (st, [], .ok (errorEnvelope ("Unknown tool: " ++ name ++
        ". Use salesbuildr_navigate to select a domain first.")))

/-- The `catch (error)` clause: a thrown error becomes an error envelope
whose text is `Error: $\x7bmessage\x7d`. -/
def catchWrap : Except String Envelope → Envelope
  | .ok e => e
  | .error msg => errorEnvelope ("Error: " ++ msg)

/-- `CallToolRequestSchema` handler — the request router with its
try/catch boundary.  Total: every request yields an envelope; no failure
escapes. -/
def callTool (env : Env) (st : ServerState) (name : String) (args? : Option Args) :
    ServerState × List UpstreamCall × Envelope :=
  let r := callToolBody env st name args?
  (r.1, r.2.1, catchWrap r.2.2)

/-- A call-tool request as received by the router. -/
structure Request where
  name : String
  args : Option Args

/-- Run a sequence of call-tool requests from a starting state,
threading the session state. -/
def runRequests (env : Env) (st : ServerState) : List Request → ServerState
  | [] => st
  | r :: rs => runRequests env (callTool env st r.name r.args).1 rs

/-- A sample environment whose client initializes and whose every
upstream call resolves to `null` — used to instantiate theorems at
concrete inputs. -/
def sampleEnv : Env := ⟨Except.ok (), fun _ => Except.ok JValue.null⟩

/-- A sample environment whose every upstream call rejects with the
message `boom`. -/
def failEnv : Env := ⟨Except.ok (), fun _ => Except.error "boom"⟩

/-- The create tool name of each domain, following the
`salesbuildr_<domain>_<verb>` namespacing convention.  Products
registers no create tool, so its conventional name hits the product
default branch of the product handler. -/
def createToolName : Domain → String
  | .companies => "salesbuildr_companies_create"
  | .contacts => "salesbuildr_contacts_create"
  | .products => "salesbuildr_products_create"
  | .opportunities => "salesbuildr_opportunities_create"
  | .quotes => "salesbuildr_quotes_create"

/-- The update tool name of each domain.  Products and quotes register
no update tool, so their conventional names hit the default branch. -/
def updateToolName : Domain → String
  | .companies => "salesbuildr_companies_update"
  | .contacts => "salesbuildr_contacts_update"
  | .products => "salesbuildr_products_update"
  | .opportunities => "salesbuildr_opportunities_update"
  | .quotes => "salesbuildr_quotes_update"

/-- JS `s.includes(sub)`: `sub` occurs contiguously in `s`. -/
def strContains (s sub : String) : Bool :=
  (List.range (s.data.length + 1)).any (fun i => sub.data.isPrefixOf (s.data.drop i))

/-- A navigation request targeting the quotes domain. -/
def navQuotesReq : Request := ⟨"salesbuildr_navigate", some [("domain", JValue.str "quotes")]⟩

/-- Sample create arguments carrying a caller-supplied `id`. -/
def sampleCreateArgs : Args := [("id", JValue.str "x"), ("name", JValue.str "Acme")]

/-- Sample update arguments: an `id` plus one mutable field. -/
def sampleUpdateArgs : Args := [("id", JValue.str "42"), ("name", JValue.str "X")]

/-- The text of the success envelope returned by a valid navigation:
the raw domain argument followed by the comma-joined names of the
registered tools of the domain. -/
def navMessage (d : Domain) : String :=
  "Navigated to " ++ domainName d ++ " domain. Available tools: " ++
    String.intercalate ", " ((getDomainTools d).map Tool.name)

/-- The envelope shape every path of this server produces: the error
flag is absent or `true` (never `false`), and there is exactly one text
content block. -/
def envelopeShapeOk (e : Envelope) : Prop :=
  (e.isError = none ∨ e.isError = some true) ∧ e.content.length = 1

/-- A request that respects the advertised input schema of the
navigation tool: when it names the navigate tool, its `domain` argument is one of
the five enum members. -/
def schemaOkReq (r : Request) : Prop :=
  r.name = "salesbuildr_navigate" →
    ∃ d : Domain, Option.bind r.args (lookupField "domain") = some (JValue.str (domainName d))

/-- The session-state invariant of the spec: `currentDomain` is `null` or one
of the five registered domain strings. -/
def domainInvariant (st : ServerState) : Prop :=
  st.currentDomain = StateVal.null ∨
    ∃ d : Domain, st.currentDomain = StateVal.val (JValue.str (domainName d))

theorem asDomain_domainName (d : Domain) :
    asDomain (StateVal.val (JValue.str (domainName d))) = some d := by
  cases d <;> rfl

theorem listTools_inDomain (d : Domain) :
    listTools (inDomain d) = .ok (backTool :: getDomainTools d) := by
  cases d <;> rfl

/-- A navigate call whose `domain` argument is one of the registered
strings: the session moves to that domain and the success envelope
carries the navigation summary. -/
theorem callTool_nav_valid (env : Env) (st : ServerState) (a : Args) (d : Domain)
    (hd : lookupField "domain" a = some (JValue.str (domainName d))) :
    callTool env st "salesbuildr_navigate" (some a) =
      (inDomain d, [], textEnvelope (navMessage d)) := by
  unfold callTool callToolBody
  simp only [if_pos rfl, navTarget, hd, asDomain_domainName]
  rfl

/-- Navigation with the canonical single-field argument bag. -/
theorem navigate_run (env : Env) (st : ServerState) (d : Domain) :
    callTool env st "salesbuildr_navigate" (some [("domain", JValue.str (domainName d))]) =
      (inDomain d, [], textEnvelope (navMessage d)) :=
  callTool_nav_valid env st _ d rfl

/-- A back call resets the session to root regardless of prior state and
arguments. -/
theorem back_run (env : Env) (st : ServerState) (args? : Option Args) :
    callTool env st "salesbuildr_back" args? =
      (⟨StateVal.null⟩, [],
        textEnvelope "Returned to domain selection. Use salesbuildr_navigate to select a domain: companies, contacts, products, opportunities, quotes") :=
  rfl

/-- Frame property of the router: any request other than the two
navigation tools leaves the session state untouched. -/
theorem router_frame (env : Env) (st : ServerState) (name : String) (args? : Option Args)
    (h1 : ¬ name = "salesbuildr_navigate") (h2 : ¬ name = "salesbuildr_back") :
    (callTool env st name args?).1 = st := by
  show (callToolBody env st name args?).1 = st
  unfold callToolBody
  rw [if_neg h1, if_neg h2]
  split
  · rfl
  · split
    · rfl
    · split
      · rfl
      · split
        · rfl
        · split <;> rfl

/-- Two incomparable prefixes cannot both head the same string: used to
show the prefix checks of the router are mutually exclusive. -/
theorem jsStartsWith_excl (n p q : String) (h : jsStartsWith n p = true)
    (hpq : jsStartsWith p q = false) (hqp : jsStartsWith q p = false) :
    jsStartsWith n q = false := by
  unfold jsStartsWith at *
  rw [List.isPrefixOf_iff_prefix] at h
  simp only [Bool.eq_false_iff, ne_eq, List.isPrefixOf_iff_prefix] at hpq hqp ⊢
  intro hq
  rcases List.prefix_or_prefix_of_prefix hq h with hc | hc
  · exact hpq hc
  · exact hqp hc

theorem jsonEnvelope_shape (v : JValue) : envelopeShapeOk (jsonEnvelope v) :=
  ⟨Or.inl rfl, rfl⟩

theorem textEnvelope_shape (s : String) : envelopeShapeOk (textEnvelope s) :=
  ⟨Or.inl rfl, rfl⟩

theorem errorEnvelope_shape (s : String) : envelopeShapeOk (errorEnvelope s) :=
  ⟨Or.inr rfl, rfl⟩

theorem awaitCall_ok_shape (env : Env) (c : UpstreamCall) (k : JValue → Envelope)
    (hk : ∀ v, envelopeShapeOk (k v)) (e : Envelope)
    (h : (awaitCall env c k).2 = Except.ok e) : envelopeShapeOk e := by
  unfold awaitCall at h
  cases hc : env.call c with
  | error msg => rw [hc] at h; exact absurd h (by simp [Except.map])
  | ok v =>
    rw [hc] at h
    simp only [Except.map] at h
    cases h
    exact hk v

theorem handleCompanyTool_ok_shape (env : Env) (name : String) (args : Args) (e : Envelope)
    (h : (handleCompanyTool env name args).2 = Except.ok e) : envelopeShapeOk e := by
  unfold handleCompanyTool at h
  split at h
  · exact absurd h (by simp)
  · repeat' split at h
    all_goals first
      | exact awaitCall_ok_shape _ _ _ (fun v => jsonEnvelope_shape v) e h
      | exact awaitCall_ok_shape _ _ _ (fun v => textEnvelope_shape _) e h
      | (cases h; exact errorEnvelope_shape _)

theorem handleContactTool_ok_shape (env : Env) (name : String) (args : Args) (e : Envelope)
    (h : (handleContactTool env name args).2 = Except.ok e) : envelopeShapeOk e := by
  unfold handleContactTool at h
  split at h
  · exact absurd h (by simp)
  · repeat' split at h
    all_goals first
      | exact awaitCall_ok_shape _ _ _ (fun v => jsonEnvelope_shape v) e h
      | exact awaitCall_ok_shape _ _ _ (fun v => textEnvelope_shape _) e h
      | (cases h; exact errorEnvelope_shape _)

theorem handleProductTool_ok_shape (env : Env) (name : String) (args : Args) (e : Envelope)
    (h : (handleProductTool env name args).2 = Except.ok e) : envelopeShapeOk e := by
  unfold handleProductTool at h
  split at h
  · exact absurd h (by simp)
  · repeat' split at h
    all_goals first
      | exact awaitCall_ok_shape _ _ _ (fun v => jsonEnvelope_shape v) e h
      | (cases h; exact errorEnvelope_shape _)

theorem handleOpportunityTool_ok_shape (env : Env) (name : String) (args : Args) (e : Envelope)
    (h : (handleOpportunityTool env name args).2 = Except.ok e) : envelopeShapeOk e := by
  unfold handleOpportunityTool at h
  split at h
  · exact absurd h (by simp)
  · repeat' split at h
    all_goals first
      | exact awaitCall_ok_shape _ _ _ (fun v => jsonEnvelope_shape v) e h
      | (cases h; exact errorEnvelope_shape _)

theorem handleQuoteTool_ok_shape (env : Env) (name : String) (args : Args) (e : Envelope)
    (h : (handleQuoteTool env name args).2 = Except.ok e) : envelopeShapeOk e := by
  unfold handleQuoteTool at h
  split at h
  · exact absurd h (by simp)
  · repeat' split at h
    all_goals first
      | exact awaitCall_ok_shape _ _ _ (fun v => jsonEnvelope_shape v) e h
      | (cases h; exact errorEnvelope_shape _)

/-- Every envelope the router body can return without throwing has the
canonical shape. -/
theorem callToolBody_ok_shape (env : Env) (st : ServerState) (name : String)
    (args? : Option Args) (e : Envelope)
    (h : (callToolBody env st name args?).2.2 = Except.ok e) : envelopeShapeOk e := by
  unfold callToolBody at h
  repeat' split at h
  all_goals first
    | exact handleCompanyTool_ok_shape env name _ e h
    | exact handleContactTool_ok_shape env name _ e h
    | exact handleProductTool_ok_shape env name _ e h
    | exact handleOpportunityTool_ok_shape env name _ e h
    | exact handleQuoteTool_ok_shape env name _ e h
    | (cases h; first
        | exact textEnvelope_shape _
        | exact errorEnvelope_shape _)
    | simp at h

/-- The router delegates any domain-prefixed name to the handler of
that domain with the given arguments, wrapping only thrown errors; the
session state is passed through untouched. -/
theorem callTool_dispatch (env : Env) (st : ServerState) (d : Domain) (name : String)
    (args : Args) (h : jsStartsWith name (domainPrefixStr d) = true) :
    callTool env st name (some args) =
      (st, (handlerFor d env name args).1, catchWrap (handlerFor d env name args).2) := by
  have hnav : ¬ name = "salesbuildr_navigate" := by
    intro e; rw [e] at h; revert h; cases d <;> decide
  have hback : ¬ name = "salesbuildr_back" := by
    intro e; rw [e] at h; revert h; cases d <;> decide
  cases d with
  | companies =>
    unfold callTool callToolBody handlerFor
    simp [hnav, hback, h]
  | contacts =>
    have h1 : jsStartsWith name (domainPrefixStr .companies) = false :=
      jsStartsWith_excl name (domainPrefixStr .contacts) (domainPrefixStr .companies) h
        (by decide) (by decide)
    unfold callTool callToolBody handlerFor
    simp [hnav, hback, h, h1]
  | products =>
    have h1 : jsStartsWith name (domainPrefixStr .companies) = false :=
      jsStartsWith_excl name (domainPrefixStr .products) (domainPrefixStr .companies) h
        (by decide) (by decide)
    have h2 : jsStartsWith name (domainPrefixStr .contacts) = false :=
      jsStartsWith_excl name (domainPrefixStr .products) (domainPrefixStr .contacts) h
        (by decide) (by decide)
    unfold callTool callToolBody handlerFor
    simp [hnav, hback, h, h1, h2]
  | opportunities =>
    have h1 : jsStartsWith name (domainPrefixStr .companies) = false :=
      jsStartsWith_excl name (domainPrefixStr .opportunities) (domainPrefixStr .companies) h
        (by decide) (by decide)
    have h2 : jsStartsWith name (domainPrefixStr .contacts) = false :=
      jsStartsWith_excl name (domainPrefixStr .opportunities) (domainPrefixStr .contacts) h
        (by decide) (by decide)
    have h3 : jsStartsWith name (domainPrefixStr .products) = false :=
      jsStartsWith_excl name (domainPrefixStr .opportunities) (domainPrefixStr .products) h
        (by decide) (by decide)
    unfold callTool callToolBody handlerFor
    simp [hnav, hback, h, h1, h2, h3]
  | quotes =>
    have h1 : jsStartsWith name (domainPrefixStr .companies) = false :=
      jsStartsWith_excl name (domainPrefixStr .quotes) (domainPrefixStr .companies) h
        (by decide) (by decide)
    have h2 : jsStartsWith name (domainPrefixStr .contacts) = false :=
      jsStartsWith_excl name (domainPrefixStr .quotes) (domainPrefixStr .contacts) h
        (by decide) (by decide)
    have h3 : jsStartsWith name (domainPrefixStr .products) = false :=
      jsStartsWith_excl name (domainPrefixStr .quotes) (domainPrefixStr .products) h
        (by decide) (by decide)
    have h4 : jsStartsWith name (domainPrefixStr .opportunities) = false :=
      jsStartsWith_excl name (domainPrefixStr .quotes) (domainPrefixStr .opportunities) h
        (by decide) (by decide)
    unfold callTool callToolBody handlerFor
    simp [hnav, hback, h, h1, h2, h3, h4]

/-- Removing the `id` field really removes it: a later lookup misses. -/
theorem lookupField_removeField_self (k : String) (a : Args) :
    lookupField k (removeField k a) = none := by
  induction a with
  | nil => rfl
  | cons p rest ih =>
    by_cases hp : p.1 = k
    · simpa [removeField, List.filter_cons, hp] using ih
    · simpa [removeField, List.filter_cons, hp, lookupField] using ih

/-- Fields survive `removeField` exactly when they are not the removed
key: the remaining payload is the original argument bag minus that key. -/
theorem mem_removeField (k : String) (a : Args) (p : String × JValue) :
    p ∈ removeField k a ↔ p ∈ a ∧ p.1 ≠ k := by
  simp [removeField, List.mem_filter, bne_iff_ne]

/-- One schema-respecting request preserves the session-state
invariant. -/
theorem callTool_preserves_invariant (env : Env) (st : ServerState) (r : Request)
    (hr : schemaOkReq r) (h : domainInvariant st) :
    domainInvariant (callTool env st r.name r.args).1 := by
  by_cases hn : r.name = "salesbuildr_navigate"
  · obtain ⟨d, hd⟩ := hr hn
    cases ha : r.args with
    | none => rw [ha] at hd; simp at hd
    | some a =>
      rw [ha] at hd
      have hd' : lookupField "domain" a = some (JValue.str (domainName d)) := hd
      rw [hn, callTool_nav_valid env st a d hd']
      exact Or.inr ⟨d, rfl⟩
  · by_cases hb : r.name = "salesbuildr_back"
    · rw [hb, back_run]; exact Or.inl rfl
    · rw [router_frame env st r.name r.args hn hb]; exact h

/-- A whole sequence of schema-respecting requests preserves the
invariant. -/
theorem runRequests_invariant (env : Env) (rs : List Request) (st : ServerState)
    (hst : domainInvariant st) (h : ∀ r ∈ rs, schemaOkReq r) :
    domainInvariant (runRequests env st rs) := by
  induction rs generalizing st with
  | nil => exact hst
  | cons r rs ih =>
    exact ih _ (callTool_preserves_invariant env st r (h r (List.mem_cons_self r rs)) hst)
      (fun r' hr' => h r' (List.mem_cons_of_mem r hr'))

/-- C1, counterexample: the claim that `currentDomain` can never hold an
arbitrary string is false as stated.  A navigate call with the
out-of-enum argument `bogus` assigns it to `currentDomain` before
`getDomainTools(domain).map` throws, leaving the session state holding
`bogus`, which is neither `null` nor a registered domain. -/
theorem c1_nav_invalid_counterexample :
    ¬ domainInvariant
      (callTool sampleEnv initialState "salesbuildr_navigate"
        (some [("domain", JValue.str "bogus")])).1 := by
  have hstate : (callTool sampleEnv initialState "salesbuildr_navigate"
      (some [("domain", JValue.str "bogus")])).1 =
      ⟨StateVal.val (JValue.str "bogus")⟩ := rfl
  rw [hstate]
  intro h
  rcases h with h | ⟨d, hd⟩
  · exact absurd h (by simp [domainInvariant])
  · cases d <;> simp [domainName] at hd

/-- C1 (amended): provided every navigate request carries a `domain`
argument drawn from the registered enum — as the navigation input
schema requires of callers — `currentDomain` is always either
null or a member of the registered domain set after any sequence of
call-tool requests.  The navigate branch itself assigns the argument
unvalidated, so the invariant rests on the schema contract, not on a
defensive check. -/
theorem c1_schema_respecting_invariant (env : Env) (rs : List Request)
    (h : ∀ r ∈ rs, schemaOkReq r) :
    domainInvariant (runRequests env initialState rs) :=
  runRequests_invariant env rs initialState (Or.inl rfl) h

theorem c1_schema_respecting_invariant_witness :
    (∀ r ∈ [navQuotesReq], schemaOkReq r) ∧
      domainInvariant (runRequests sampleEnv initialState [navQuotesReq]) := by
  have hok : ∀ r ∈ [navQuotesReq], schemaOkReq r := by
    intro r hr
    simp only [List.mem_singleton] at hr
    subst hr
    intro _
    exact ⟨Domain.quotes, rfl⟩
  exact ⟨hok, c1_schema_respecting_invariant sampleEnv [navQuotesReq] hok⟩

/-- C2: the router is total — every call-tool request yields a response
envelope whose error flag is absent or `true` (never `false`) and whose
content is exactly one text block; and whenever the handler body throws
(`callToolBody` yields `Except.error`), the returned envelope is the
error envelope whose single text block is `Error: ` followed by the
message of the failure. -/
theorem c2_router_envelope (env : Env) (st : ServerState) (name : String)
    (args? : Option Args) :
    ((callTool env st name args?).2.2.isError = none ∨
        (callTool env st name args?).2.2.isError = some true) ∧
      (callTool env st name args?).2.2.content.length = 1 ∧
      ∀ msg, (callToolBody env st name args?).2.2 = Except.error msg →
        (callTool env st name args?).2.2 = errorEnvelope ("Error: " ++ msg) := by
  have hc : (callTool env st name args?).2.2 =
      catchWrap (callToolBody env st name args?).2.2 := rfl
  cases hb : (callToolBody env st name args?).2.2 with
  | ok e =>
    have hs := callToolBody_ok_shape env st name args? e hb
    rw [hc, hb]
    exact ⟨hs.1, hs.2, fun msg hmsg => Except.noConfusion hmsg⟩
  | error msg =>
    rw [hc, hb]
    refine ⟨Or.inr rfl, rfl, fun msg2 hmsg => ?_⟩
    have h2 : msg = msg2 := by injection hmsg
    rw [h2]
    rfl

theorem c2_router_envelope_witness :
    (callToolBody failEnv initialState "salesbuildr_quotes_get" (some [])).2.2 =
        Except.error "boom" ∧
      (callTool failEnv initialState "salesbuildr_quotes_get" (some [])).2.2 =
        errorEnvelope ("Error: " ++ "boom") :=
  ⟨rfl, (c2_router_envelope failEnv initialState "salesbuildr_quotes_get" (some [])).2.2
    "boom" rfl⟩

/-- C3: a fresh session lists exactly the navigation tool; after
navigate(d) the list is exactly the back tool followed by the tools of d in
registration order; a subsequent back() restores exactly the root
list. -/
theorem c3_navigation_round_trip (env env2 : Env) (d : Domain) :
    listTools initialState = Except.ok [navigateTool] ∧
    listTools (callTool env initialState "salesbuildr_navigate"
        (some [("domain", JValue.str (domainName d))])).1 =
      Except.ok (backTool :: getDomainTools d) ∧
    listTools (callTool env2
        (callTool env initialState "salesbuildr_navigate"
          (some [("domain", JValue.str (domainName d))])).1
        "salesbuildr_back" (some [])).1 = Except.ok [navigateTool] := by
  refine ⟨rfl, ?_, ?_⟩
  · rw [navigate_run]
    exact listTools_inDomain d
  · rw [back_run]
    rfl

/-- C4: any tool name bearing the namespace of a registered domain is
delegated to the handler of that domain with the given arguments, from any
session state; the envelope of the handler is returned unchanged (the outer
catch only converts thrown errors), and the non-state components of the
result do not depend on the current domain. -/
theorem c4_stateless_dispatch (env : Env) (st st2 : ServerState) (d : Domain)
    (name : String) (args : Args)
    (h : jsStartsWith name (domainPrefixStr d) = true) :
    callTool env st name (some args) =
      (st, (handlerFor d env name args).1, catchWrap (handlerFor d env name args).2) ∧
    (callTool env st name (some args)).2 = (callTool env st2 name (some args)).2 ∧
    ∀ e, (handlerFor d env name args).2 = Except.ok e →
      (callTool env st name (some args)).2.2 = e := by
  have h1 := callTool_dispatch env st d name args h
  have h2 := callTool_dispatch env st2 d name args h
  refine ⟨h1, by rw [h1, h2], fun e he => ?_⟩
  rw [h1]
  show catchWrap (handlerFor d env name args).2 = e
  rw [he]
  rfl

theorem c4_stateless_dispatch_witness :
    jsStartsWith "salesbuildr_companies_list" (domainPrefixStr Domain.companies) = true ∧
    callTool sampleEnv initialState "salesbuildr_companies_list" (some []) =
      (initialState,
        (handlerFor Domain.companies sampleEnv "salesbuildr_companies_list" []).1,
        catchWrap (handlerFor Domain.companies sampleEnv "salesbuildr_companies_list" []).2) :=
  ⟨by decide, (c4_stateless_dispatch sampleEnv initialState initialState Domain.companies
    "salesbuildr_companies_list" [] (by decide)).1⟩

/-- C5: a create invocation never passes a caller-supplied `id`
upstream — every upstream call issued by a create tool carries exactly
the argument bag minus the `id` field, the stripped payload has no `id`
key, and all other supplied fields survive unchanged. -/
theorem c5_create_strips_id (env : Env) (args : Args) (d : Domain)
    (h : d ≠ Domain.products) :
    (∀ c ∈ (handlerFor d env (createToolName d) args).1,
        c = ⟨d, Method.create, none, some (removeField "id" args)⟩) ∧
    lookupField "id" (removeField "id" args) = none ∧
    ∀ p : String × JValue, p ∈ removeField "id" args ↔ p ∈ args ∧ p.1 ≠ "id" := by
  refine ⟨?_, lookupField_removeField_self "id" args, fun p => mem_removeField "id" args p⟩
  cases d with
  | products => exact absurd rfl h
  | companies =>
    intro c hmem
    cases hc : env.clientInit with
    | error e => simp [handlerFor, handleCompanyTool, hc] at hmem
    | ok u =>
      simp [handlerFor, handleCompanyTool, createToolName, awaitCall, hc] at hmem
      exact hmem
  | contacts =>
    intro c hmem
    cases hc : env.clientInit with
    | error e => simp [handlerFor, handleContactTool, hc] at hmem
    | ok u =>
      simp [handlerFor, handleContactTool, createToolName, awaitCall, hc] at hmem
      exact hmem
  | opportunities =>
    intro c hmem
    cases hc : env.clientInit with
    | error e => simp [handlerFor, handleOpportunityTool, hc] at hmem
    | ok u =>
      simp [handlerFor, handleOpportunityTool, createToolName, awaitCall, hc] at hmem
      exact hmem
  | quotes =>
    intro c hmem
    cases hc : env.clientInit with
    | error e => simp [handlerFor, handleQuoteTool, hc] at hmem
    | ok u =>
      simp [handlerFor, handleQuoteTool, createToolName, awaitCall, hc] at hmem
      exact hmem

theorem c5_create_strips_id_witness :
    Domain.contacts ≠ Domain.products ∧
    ((∀ c ∈ (handlerFor Domain.contacts sampleEnv (createToolName Domain.contacts)
          sampleCreateArgs).1,
        c = ⟨Domain.contacts, Method.create, none, some (removeField "id" sampleCreateArgs)⟩) ∧
      lookupField "id" (removeField "id" sampleCreateArgs) = none ∧
      ∀ p : String × JValue,
        p ∈ removeField "id" sampleCreateArgs ↔ p ∈ sampleCreateArgs ∧ p.1 ≠ "id") :=
  ⟨by decide, c5_create_strips_id sampleEnv sampleCreateArgs Domain.contacts (by decide)⟩

/-- C6: an update invocation routes the supplied `id` as the separate
positional identifier argument and passes upstream exactly the remaining
fields as payload, with `id` never present inside that payload. -/
theorem c6_update_separates_id (env : Env) (args : Args) (idv : JValue) (d : Domain)
    (hd : d = Domain.companies ∨ d = Domain.contacts ∨ d = Domain.opportunities)
    (hid : lookupField "id" args = some idv) :
    (∀ c ∈ (handlerFor d env (updateToolName d) args).1,
        c = ⟨d, Method.update, some idv, some (removeField "id" args)⟩) ∧
    lookupField "id" (removeField "id" args) = none ∧
    ∀ p : String × JValue, p ∈ removeField "id" args ↔ p ∈ args ∧ p.1 ≠ "id" := by
  refine ⟨?_, lookupField_removeField_self "id" args, fun p => mem_removeField "id" args p⟩
  rcases hd with rfl | rfl | rfl
  · intro c hmem
    cases hc : env.clientInit with
    | error e => simp [handlerFor, handleCompanyTool, hc] at hmem
    | ok u =>
      simp [handlerFor, handleCompanyTool, updateToolName, awaitCall, hc, hid] at hmem
      exact hmem
  · intro c hmem
    cases hc : env.clientInit with
    | error e => simp [handlerFor, handleContactTool, hc] at hmem
    | ok u =>
      simp [handlerFor, handleContactTool, updateToolName, awaitCall, hc, hid] at hmem
      exact hmem
  · intro c hmem
    cases hc : env.clientInit with
    | error e => simp [handlerFor, handleOpportunityTool, hc] at hmem
    | ok u =>
      simp [handlerFor, handleOpportunityTool, updateToolName, awaitCall, hc, hid] at hmem
      exact hmem

theorem c6_update_separates_id_witness :
    (Domain.contacts = Domain.companies ∨ Domain.contacts = Domain.contacts ∨
        Domain.contacts = Domain.opportunities) ∧
    lookupField "id" sampleUpdateArgs = some (JValue.str "42") ∧
    ((∀ c ∈ (handlerFor Domain.contacts sampleEnv (updateToolName Domain.contacts)
          sampleUpdateArgs).1,
        c = ⟨Domain.contacts, Method.update, some (JValue.str "42"),
          some (removeField "id" sampleUpdateArgs)⟩) ∧
      lookupField "id" (removeField "id" sampleUpdateArgs) = none ∧
      ∀ p : String × JValue,
        p ∈ removeField "id" sampleUpdateArgs ↔ p ∈ sampleUpdateArgs ∧ p.1 ≠ "id") :=
  ⟨Or.inr (Or.inl rfl), rfl,
    c6_update_separates_id sampleEnv sampleUpdateArgs (JValue.str "42") Domain.contacts
      (Or.inr (Or.inl rfl)) rfl⟩

/-- C7: a name that is neither reserved nor domain-prefixed yields an
error envelope naming the tool and telling the caller to navigate
first, and the session state is returned unchanged. -/
theorem c7_unknown_tool (env : Env) (st : ServerState) (name : String) (args? : Option Args)
    (h1 : ¬ name = "salesbuildr_navigate") (h2 : ¬ name = "salesbuildr_back")
    (h3 : ∀ d : Domain, jsStartsWith name (domainPrefixStr d) = false) :
    callTool env st name args? =
      (st, [], errorEnvelope ("Unknown tool: " ++ name ++
        ". Use salesbuildr_navigate to select a domain first.")) := by
  unfold callTool callToolBody
  simp [h1, h2, h3 Domain.companies, h3 Domain.contacts, h3 Domain.products,
    h3 Domain.opportunities, h3 Domain.quotes, catchWrap]

theorem c7_unknown_tool_witness :
    ¬ "foo" = "salesbuildr_navigate" ∧ ¬ "foo" = "salesbuildr_back" ∧
    callTool sampleEnv initialState "foo" (some []) =
      (initialState, [], errorEnvelope ("Unknown tool: " ++ "foo" ++
        ". Use salesbuildr_navigate to select a domain first.")) :=
  ⟨by decide, by decide,
    c7_unknown_tool sampleEnv initialState "foo" (some []) (by decide) (by decide)
      (fun d => by cases d <;> decide)⟩

/-- C8: navigating to A and then to B leaves the session in B — the
subsequent tool list is exactly the back tool plus the tools of B, with no
union or stacking of the tools of A. -/
theorem c8_domain_switch (env env2 : Env) (st : ServerState) (A B : Domain)
    (h : A ≠ B) :
    (callTool env2
        (callTool env st "salesbuildr_navigate"
          (some [("domain", JValue.str (domainName A))])).1
        "salesbuildr_navigate" (some [("domain", JValue.str (domainName B))])).1 =
      inDomain B ∧
    listTools (callTool env2
        (callTool env st "salesbuildr_navigate"
          (some [("domain", JValue.str (domainName A))])).1
        "salesbuildr_navigate" (some [("domain", JValue.str (domainName B))])).1 =
      Except.ok (backTool :: getDomainTools B) := by
  constructor
  · rw [navigate_run]
  · rw [navigate_run]
    exact listTools_inDomain B

theorem c8_domain_switch_witness :
    Domain.companies ≠ Domain.contacts ∧
    (callTool sampleEnv
        (callTool sampleEnv initialState "salesbuildr_navigate"
          (some [("domain", JValue.str (domainName Domain.companies))])).1
        "salesbuildr_navigate"
        (some [("domain", JValue.str (domainName Domain.contacts))])).1 =
      inDomain Domain.contacts :=
  ⟨by decide,
    (c8_domain_switch sampleEnv sampleEnv initialState Domain.companies Domain.contacts
      (by decide)).1⟩

/-- C9, counterexample: the claim that the navigate success text
summarizes every tool visible in the new state is false — the back tool
is visible after navigating to products, yet its name does not occur in
the returned text (the code joins only `getDomainTools(domain)`, without
the back tool). -/
theorem c9_back_missing_counterexample :
    backTool ∈ (backTool :: getDomainTools Domain.products) ∧
    strContains
      ((callTool sampleEnv initialState "salesbuildr_navigate"
          (some [("domain", JValue.str "products")])).2.2.content.headD ⟨""⟩).text
      backTool.name = false :=
  ⟨List.mem_cons_self _ _, by decide⟩

/-- C9 (amended): a navigate call for registered domain d mutates the
session to InDomain(d) and returns a success envelope whose text
summarizes the names of the registered tools of d, comma-joined in
registration order — the back tool, though also visible in the new
state, is not named in the summary. -/
theorem c9_navigate_summary (env : Env) (st : ServerState) (d : Domain) :
    callTool env st "salesbuildr_navigate" (some [("domain", JValue.str (domainName d))]) =
      (inDomain d, [], textEnvelope ("Navigated to " ++ domainName d ++
        " domain. Available tools: " ++
        String.intercalate ", " ((getDomainTools d).map Tool.name))) :=
  navigate_run env st d

/-- C10: the frame property — every call-tool request other than the
two navigation tools, including domain-prefixed calls that succeed,
fail upstream, or hit the unknown-verb branch of a handler, leaves
`currentDomain` exactly as it was. -/
theorem c10_state_frame (env : Env) (st : ServerState) (name : String)
    (args? : Option Args)
    (h1 : ¬ name = "salesbuildr_navigate") (h2 : ¬ name = "salesbuildr_back") :
    (callTool env st name args?).1 = st :=
  router_frame env st name args? h1 h2

theorem c10_state_frame_witness :
    ¬ "salesbuildr_quotes_list" = "salesbuildr_navigate" ∧
    ¬ "salesbuildr_quotes_list" = "salesbuildr_back" ∧
    (callTool failEnv (inDomain Domain.contacts) "salesbuildr_quotes_list" (some [])).1 =
      inDomain Domain.contacts :=
  ⟨by decide, by decide,
    c10_state_frame failEnv (inDomain Domain.contacts) "salesbuildr_quotes_list" (some [])
      (by decide) (by decide)⟩

end Salesbuildr
